import Mathlib

/-!
Verification of the middleware in `src/index.ts` (graphql-middleware-jaeger).

The embedding is a shallow one: the middleware returned by
`graphqlJaegerMiddleware` is modelled as the pure function `middlewareRun`
which, for one invocation, returns the list of observable events (span
creation, `span.start()` / `span.end()` calls, hook invocations, resolver
invocation, promise settlement) together with the final state of the promise
the caller holds.  Hook callbacks and the wrapped resolver are modelled as
functions into `Except`: `Except.error` models a thrown error / rejected
promise.  A rejection of the `async` callback passed to
`tracer.startRootSpan` that escapes without reaching `pResolve` / `pReject`
leaves the caller's promise forever unsettled; this is the `Outcome.pending`
case.

Type parameters throughout: `T` = the user part of the GraphQL context
object, `P`/`A`/`I` = the resolver's `parent` / `args` / `info` arguments,
`D` = the resolved data type, `E` = the error type.
-/

namespace GJM

/-- Span options, from `TraceOptions` of `@opencensus/core` (only the name
is relevant to this layer). -/
structure TraceOptions where
  name : String
deriving DecidableEq, Repr

/-- Structure `IMiddlewareOptions` of `src/index.ts`.  `rootSpanOptions` is declared
required in TypeScript, but the code guards it with
`middlewareOptions.rootSpanOptions || defaultOptions.rootSpanOptions`, so a
caller may in fact omit it; we model the field as optional. -/
structure IMiddlewareOptions where
  rootSpanOptions : Option TraceOptions
deriving DecidableEq, Repr

/-- Constant `defaultOptions` of `src/index.ts`. -/
def defaultOptions : IMiddlewareOptions :=
  { rootSpanOptions := some { name := "graphqlRequest" } }

/-- The span options actually handed to `tracer.startRootSpan`:
`middlewareOptions.rootSpanOptions || defaultOptions.rootSpanOptions`. -/
def chosenSpanOptions (opts : IMiddlewareOptions) : Option TraceOptions :=
  match opts.rootSpanOptions with
  | some o => some o
  | none => defaultOptions.rootSpanOptions

/-- The `context.tracing` object: the middleware stores the tracer reference
(`context.tracing.tracer = tracer`) and the active span reference
(`context.tracing.rootSpan = span`) on it.  There is one tracer and one root
span per invocation, so each reference is modelled as `Option Unit`
(present or absent). -/
structure TracingHandle where
  tracer : Option Unit
  rootSpan : Option Unit
deriving DecidableEq, Repr

/-- The caller-supplied GraphQL context object: its user payload plus the
`tracing` field injected by the middleware (absent before injection). -/
structure Ctx (T : Type) where
  user : T
  tracing : Option TracingHandle
deriving DecidableEq, Repr

/-- The `data` field of `IHookFnContext` in `src/index.ts`. -/
structure HookData (P A I D : Type) where
  resolvedData : Option D
  args : A
  parent : P
  info : I
deriving DecidableEq, Repr

/-- Structure `IHookFnContext` of `src/index.ts`: the record handed to every hook
callback.  `rootSpan` is the (unique per invocation) active span. -/
structure IHookFnContext (T P A I D E : Type) where
  context : Ctx T
  rootSpan : Unit
  data : HookData P A I D
  err : Option E
deriving DecidableEq, Repr

/-- Type `IMiddlewareHookFn`: a hook callback; `Except.error e` models a hook
that throws (or returns a rejected promise). -/
def IMiddlewareHookFn (T P A I D E : Type) : Type :=
  IHookFnContext T P A I D E → Except E Unit

/-- Type `IMiddlewareHooks`: the hooks object, keyed by lifecycle-event name.
`none` models a key whose value is absent or not an array (the
`!Array.isArray(hook)` guard in `runHook`). -/
def IMiddlewareHooks (T P A I D E : Type) : Type :=
  String → Option (List (IMiddlewareHookFn T P A I D E))

/-- The observable events of one middleware invocation, in order. -/
inductive Ev (T P A I D E : Type) where
  /-- Assignment `context.tracing = ...; context.tracing.tracer = tracer` -/
  | attachTracer : Ev T P A I D E
  /-- Call `tracer.startRootSpan(options, ...)` creating the root span -/
  | spanCreated (options : Option TraceOptions) : Ev T P A I D E
  /-- Assignment `context.tracing.rootSpan = span` -/
  | attachRootSpan : Ev T P A I D E
  /-- the dispatcher invokes hook number `idx` of lifecycle event `name`,
  passing it `rec` -/
  | hookCall (name : String) (idx : Nat) (rec : IHookFnContext T P A I D E) : Ev T P A I D E
  /-- the awaited hook number `idx` of `name` completed without throwing -/
  | hookDone (name : String) (idx : Nat) : Ev T P A I D E
  /-- Call `span.start()` -/
  | spanStart : Ev T P A I D E
  /-- Invocation `resolve(parent, args, context, info)` -/
  | resolverCall (parent : P) (args : A) (context : Ctx T) (info : I) : Ev T P A I D E
  /-- the awaited resolver resolved with `d` -/
  | resolverOk (d : D) : Ev T P A I D E
  /-- the awaited resolver threw / rejected with `e` -/
  | resolverThrew (e : E) : Ev T P A I D E
  /-- Call `span.end()` -/
  | spanEnd : Ev T P A I D E
  /-- Call `pResolve(data)` — the caller's promise fulfills with `d` -/
  | promiseResolve (d : D) : Ev T P A I D E
  /-- Call `pReject(err)` — the caller's promise rejects with `e` -/
  | promiseReject (e : E) : Ev T P A I D E
deriving DecidableEq, Repr

/-- What the caller of the middleware ultimately observes of the promise
returned by the middleware. -/
inductive Outcome (D E : Type) where
  /-- the promise fulfilled with `d` -/
  | resolved (d : D) : Outcome D E
  /-- the promise rejected with `e` -/
  | rejected (e : E) : Outcome D E
  /-- neither `pResolve` nor `pReject` was ever reached: the promise never
  settles (the error escaped the `async` span callback unhandled) -/
  | pending : Outcome D E
deriving DecidableEq, Repr

variable {T P A I D E : Type}

/-- The `for (const hookFn of hook) await hookFn.apply(null, [hookFnContext])`
loop of `runHook`, together with the events it produces.  `i` is the index of
the first hook of `fns` in the registered list. -/
def runHookList (name : String) (rec : IHookFnContext T P A I D E) :
    List (IMiddlewareHookFn T P A I D E) → Nat → List (Ev T P A I D E) × Except E Unit
  | [], _ => ([], Except.ok ())
  | f :: fs, i =>
    match f rec with
    | Except.ok _ =>
      let r := runHookList name rec fs (i + 1)
      (Ev.hookCall name i rec :: Ev.hookDone name i :: r.1, r.2)
    | Except.error e => ([Ev.hookCall name i rec], Except.error e)

/-- Function `runHook` of `src/index.ts`: look up the list registered under `name`;
if it is not an array this is a no-op; otherwise run every callback in
order, awaiting each, stopping at (and propagating) the first thrown
error. -/
def runHook (hooks : IMiddlewareHooks T P A I D E) (name : String)
    (rec : IHookFnContext T P A I D E) : List (Ev T P A I D E) × Except E Unit :=
  match hooks name with
  | none => ([], Except.ok ())
  | some hook => runHookList name rec hook 0

/-- The context object as every hook and the resolver see it: by the time
any of them runs, `context.tracing.tracer` and `context.tracing.rootSpan`
have both been assigned. -/
def attachedCtx (user : T) : Ctx T :=
  { user := user, tracing := some { tracer := some (), rootSpan := some () } }

/-- The record passed to the `preResolve` dispatch:
`{ rootSpan: span, context, data: { parent, args, info } }`. -/
def preRecord (parent : P) (args : A) (user : T) (info : I) :
    IHookFnContext T P A I D E :=
  { context := attachedCtx user, rootSpan := ()
    data := { resolvedData := none, args := args, parent := parent, info := info }
    err := none }

/-- The record passed to the `postResolve` dispatch:
`{ rootSpan: span, data: { resolvedData: data, parent, args, info }, context }`. -/
def postRecord (parent : P) (args : A) (user : T) (info : I) (d : D) :
    IHookFnContext T P A I D E :=
  { context := attachedCtx user, rootSpan := ()
    data := { resolvedData := some d, args := args, parent := parent, info := info }
    err := none }

/-- The record passed to the `resolveError` dispatch:
`{ rootSpan: span, err, context, data: { parent, args, info } }`. -/
def errRecord (parent : P) (args : A) (user : T) (info : I) (e : E) :
    IHookFnContext T P A I D E :=
  { context := attachedCtx user, rootSpan := ()
    data := { resolvedData := none, args := args, parent := parent, info := info }
    err := some e }

/-- One invocation of the middleware returned by `graphqlJaegerMiddleware`
(the function built at line 90 of `src/index.ts`), as the pair of the event
list it produces and the final state of the returned promise.

The control flow mirrors the source: attach the tracer to the context, start
a root span whose callback attaches the span to the context, dispatch
`preResolve` (outside the `try` block — a throw here escapes the `async`
callback, so the promise never settles), then inside `try`: `span.start()`,
invoke the resolver, dispatch `postResolve`, `span.end()`, `pResolve`; the
`catch` block dispatches `resolveError` (a throw here again escapes), then
`span.end()` and `pReject` with the caught error. -/
def middlewareRun (opts : IMiddlewareOptions) (hooks : IMiddlewareHooks T P A I D E)
    (resolve : P → A → Ctx T → I → Except E D)
    (parent : P) (args : A) (user : T) (info : I) :
    List (Ev T P A I D E) × Outcome D E :=
  match runHook hooks "preResolve" (preRecord parent args user info) with
  | (preEvs, Except.error _) =>
    ([Ev.attachTracer, Ev.spanCreated (chosenSpanOptions opts), Ev.attachRootSpan]
      ++ preEvs, Outcome.pending)
  | (preEvs, Except.ok _) =>
    match resolve parent args (attachedCtx user) info with
    | Except.ok d =>
      match runHook hooks "postResolve" (postRecord parent args user info d) with
      | (postEvs, Except.ok _) =>
        ([Ev.attachTracer, Ev.spanCreated (chosenSpanOptions opts), Ev.attachRootSpan]
          ++ preEvs
          ++ [Ev.spanStart, Ev.resolverCall parent args (attachedCtx user) info,
              Ev.resolverOk d]
          ++ postEvs
          ++ [Ev.spanEnd, Ev.promiseResolve d], Outcome.resolved d)
      | (postEvs, Except.error h) =>
        match runHook hooks "resolveError" (errRecord parent args user info h) with
        | (errEvs, Except.ok _) =>
          ([Ev.attachTracer, Ev.spanCreated (chosenSpanOptions opts), Ev.attachRootSpan]
            ++ preEvs
            ++ [Ev.spanStart, Ev.resolverCall parent args (attachedCtx user) info,
                Ev.resolverOk d]
            ++ postEvs ++ errEvs
            ++ [Ev.spanEnd, Ev.promiseReject h], Outcome.rejected h)
        | (errEvs, Except.error _) =>
          ([Ev.attachTracer, Ev.spanCreated (chosenSpanOptions opts), Ev.attachRootSpan]
            ++ preEvs
            ++ [Ev.spanStart, Ev.resolverCall parent args (attachedCtx user) info,
                Ev.resolverOk d]
            ++ postEvs ++ errEvs, Outcome.pending)
    | Except.error e =>
      match runHook hooks "resolveError" (errRecord parent args user info e) with
      | (errEvs, Except.ok _) =>
        ([Ev.attachTracer, Ev.spanCreated (chosenSpanOptions opts), Ev.attachRootSpan]
          ++ preEvs
          ++ [Ev.spanStart, Ev.resolverCall parent args (attachedCtx user) info,
              Ev.resolverThrew e]
          ++ errEvs
          ++ [Ev.spanEnd, Ev.promiseReject e], Outcome.rejected e)
      | (errEvs, Except.error _) =>
        ([Ev.attachTracer, Ev.spanCreated (chosenSpanOptions opts), Ev.attachRootSpan]
          ++ preEvs
          ++ [Ev.spanStart, Ev.resolverCall parent args (attachedCtx user) info,
              Ev.resolverThrew e]
          ++ errEvs, Outcome.pending)

/-- Event discriminator: is this event a `span.start()` call? -/
@[simp] def Ev.isSpanStart : Ev T P A I D E → Bool
  | Ev.spanStart => true
  | _ => false

/-- Event discriminator: is this event a `span.end()` call? -/
@[simp] def Ev.isSpanEnd : Ev T P A I D E → Bool
  | Ev.spanEnd => true
  | _ => false

/-- Event discriminator: is this event the attaching of the tracer
reference to `context.tracing`? -/
@[simp] def Ev.isAttachTracer : Ev T P A I D E → Bool
  | Ev.attachTracer => true
  | _ => false

/-- Event discriminator: is this event the attaching of the root span
reference to `context.tracing`? -/
@[simp] def Ev.isAttachRootSpan : Ev T P A I D E → Bool
  | Ev.attachRootSpan => true
  | _ => false

/-- Event discriminator: is this event the invocation of the wrapped
resolver? -/
@[simp] def Ev.isResolverCall : Ev T P A I D E → Bool
  | Ev.resolverCall _ _ _ _ => true
  | _ => false

/-- Event discriminator: is this event an invocation of hook number `idx`
of lifecycle event `name`? -/
@[simp] def Ev.isHookCallAt (name : String) (idx : Nat) : Ev T P A I D E → Bool
  | Ev.hookCall n j _ => n == name && j == idx
  | _ => false

/-- Number of `span.start()` calls in an event list. -/
def spanStartCount (t : List (Ev T P A I D E)) : Nat :=
  t.countP Ev.isSpanStart

/-- Number of `span.end()` calls in an event list. -/
def spanEndCount (t : List (Ev T P A I D E)) : Nat :=
  t.countP Ev.isSpanEnd

/-- Does the event exhibit a fully attached tracing handle?  Hook
invocations and the resolver invocation must see a context whose
`tracing` field carries both the tracer reference and the root-span
reference; every other event is unconstrained. -/
@[simp] def tracingComplete : Option TracingHandle → Bool
  | some h => h.tracer.isSome && h.rootSpan.isSome
  | none => false

/-- Check `tracingComplete` on the context embedded in an event, for the
events that hand the context to user code. -/
@[simp] def evTracingVisible : Ev T P A I D E → Bool
  | Ev.hookCall _ _ rec => tracingComplete rec.context.tracing
  | Ev.resolverCall _ _ c _ => tracingComplete c.tracing
  | _ => true

/-- The event list produced by a dispatch in which every callback
completes: callbacks are invoked one at a time, in registration order,
and each completes (its `hookDone`) before the next is invoked. -/
def dispatchEvents (name : String) (rec : IHookFnContext T P A I D E) :
    List (IMiddlewareHookFn T P A I D E) → Nat → List (Ev T P A I D E)
  | [], _ => []
  | _ :: fs, i =>
    Ev.hookCall name i rec :: Ev.hookDone name i :: dispatchEvents name rec fs (i + 1)

/-- Index and error of the first callback in the list that throws on `rec`,
if any. -/
def firstFailure (rec : IHookFnContext T P A I D E) :
    List (IMiddlewareHookFn T P A I D E) → Option (Nat × E)
  | [] => none
  | f :: fs =>
    match f rec with
    | Except.ok _ => (firstFailure rec fs).map (fun p => (p.1 + 1, p.2))
    | Except.error e => some (0, e)

/-- Every registered hook callback completes without throwing, whatever
record it is handed. -/
def AllOk (hooks : IMiddlewareHooks T P A I D E) : Prop :=
  ∀ (name : String) (fns : List (IMiddlewareHookFn T P A I D E)),
    hooks name = some fns → ∀ f ∈ fns, ∀ rec, f rec = Except.ok ()

/-- The promise state that mirrors the resolver's own outcome: fulfilled
with its data, or rejected with its error. -/
def mirrorOutcome : Except E D → Outcome D E
  | Except.ok d => Outcome.resolved d
  | Except.error e => Outcome.rejected e

theorem runHookList_allOk (name : String) (rec : IHookFnContext T P A I D E)
    (fns : List (IMiddlewareHookFn T P A I D E)) :
    ∀ i : Nat, (∀ f ∈ fns, f rec = Except.ok ()) →
      runHookList name rec fns i = (dispatchEvents name rec fns i, Except.ok ()) := by
  induction fns with
  | nil => intro i _; rfl
  | cons f fs ih =>
    intro i h
    have hf : f rec = Except.ok () := h f (List.mem_cons_self f fs)
    have ihh := ih (i + 1) (fun g hg => h g (List.mem_cons_of_mem f hg))
    simp [runHookList, hf, ihh, dispatchEvents]

theorem runHook_ok_of_allOk (hooks : IMiddlewareHooks T P A I D E)
    (name : String) (rec : IHookFnContext T P A I D E) (h : AllOk hooks) :
    (runHook hooks name rec).2 = Except.ok () := by
  unfold runHook
  cases hr : hooks name with
  | none => rfl
  | some fns =>
    show (runHookList name rec fns 0).2 = Except.ok ()
    rw [runHookList_allOk name rec fns 0 (fun f hf => h name fns hr f hf rec)]

theorem runHookList_shape (name : String) (rec : IHookFnContext T P A I D E)
    (fns : List (IMiddlewareHookFn T P A I D E)) :
    ∀ i : Nat, ∀ ev ∈ (runHookList name rec fns i).1,
      (∃ j, ev = Ev.hookCall name j rec) ∨ (∃ j, ev = Ev.hookDone name j) := by
  induction fns with
  | nil => intro i ev h; simp [runHookList] at h
  | cons f fs ih =>
    intro i ev h
    cases hf : f rec with
    | ok u =>
      rw [runHookList] at h
      rw [hf] at h
      simp only [List.mem_cons] at h
      rcases h with h | h | h
      · exact Or.inl ⟨i, h⟩
      · exact Or.inr ⟨i, h⟩
      · exact ih (i + 1) ev h
    | error e =>
      rw [runHookList] at h
      rw [hf] at h
      simp only [List.mem_singleton] at h
      exact Or.inl ⟨_, h⟩

theorem runHook_shape (hooks : IMiddlewareHooks T P A I D E) (name : String)
    (rec : IHookFnContext T P A I D E) :
    ∀ ev ∈ (runHook hooks name rec).1,
      (∃ j, ev = Ev.hookCall name j rec) ∨ (∃ j, ev = Ev.hookDone name j) := by
  intro ev h
  unfold runHook at h
  cases hr : hooks name with
  | none => rw [hr] at h; simp at h
  | some fns => rw [hr] at h; exact runHookList_shape name rec fns 0 ev h

theorem runHook_countP_zero (hooks : IMiddlewareHooks T P A I D E) (name : String)
    (rec : IHookFnContext T P A I D E) (p : Ev T P A I D E → Bool)
    (h1 : ∀ j, p (Ev.hookCall name j rec) = false)
    (h2 : ∀ j, p (Ev.hookDone name j) = false) :
    ((runHook hooks name rec).1).countP p = 0 := by
  refine List.countP_eq_zero.mpr ?_
  intro ev hev
  rcases runHook_shape hooks name rec ev hev with ⟨j, rfl⟩ | ⟨j, rfl⟩
  · simp [h1 j]
  · simp [h2 j]

theorem runHook_all (hooks : IMiddlewareHooks T P A I D E) (name : String)
    (rec : IHookFnContext T P A I D E) (p : Ev T P A I D E → Bool)
    (h1 : ∀ j, p (Ev.hookCall name j rec) = true)
    (h2 : ∀ j, p (Ev.hookDone name j) = true) :
    ((runHook hooks name rec).1).all p = true := by
  refine List.all_eq_true.mpr ?_
  intro ev hev
  rcases runHook_shape hooks name rec ev hev with ⟨j, rfl⟩ | ⟨j, rfl⟩
  · exact h1 j
  · exact h2 j

theorem runHookList_firstFailure (name : String) (rec : IHookFnContext T P A I D E)
    (fns : List (IMiddlewareHookFn T P A I D E)) :
    ∀ i : Nat,
      runHookList name rec fns i =
        match firstFailure rec fns with
        | none => (dispatchEvents name rec fns i, Except.ok ())
        | some (k, e) =>
          (dispatchEvents name rec (fns.take k) i ++ [Ev.hookCall name (i + k) rec],
           Except.error e) := by
  induction fns with
  | nil => intro i; rfl
  | cons f fs ih =>
    intro i
    cases hf : f rec with
    | error e =>
      simp [runHookList, firstFailure, hf, dispatchEvents]
    | ok u =>
      cases hff : firstFailure rec fs with
      | none =>
        simp [runHookList, firstFailure, hf, hff, dispatchEvents, ih (i + 1)]
      | some p =>
        obtain ⟨k, e⟩ := p
        have ihh := ih (i + 1)
        rw [hff] at ihh
        have harith : i + 1 + k = i + (k + 1) := by omega
        rw [show (match some (k, e) with
              | none => (dispatchEvents name rec fs (i + 1), Except.ok ())
              | some (k, e) =>
                (dispatchEvents name rec (fs.take k) (i + 1)
                  ++ [Ev.hookCall name (i + 1 + k) rec], Except.error e)) =
            (dispatchEvents name rec (fs.take k) (i + 1)
              ++ [Ev.hookCall name (i + 1 + k) rec], Except.error e) from rfl] at ihh
        rw [harith] at ihh
        simp [runHookList, firstFailure, hf, hff, dispatchEvents, ihh,
          List.take_succ_cons]

/-- A hook callback that completes without throwing. -/
def noopHook : IMiddlewareHookFn Nat Nat Nat Nat Nat Nat :=
  fun _ => Except.ok ()

/-- A hook callback that throws `e`. -/
def throwHook (e : Nat) : IMiddlewareHookFn Nat Nat Nat Nat Nat Nat :=
  fun _ => Except.error e

/-- Middleware options with no `rootSpanOptions` configured. -/
def natOpts : IMiddlewareOptions := { rootSpanOptions := none }

/-- A resolver that resolves with `5`. -/
def okResolve : Nat → Nat → Ctx Nat → Nat → Except Nat Nat :=
  fun _ _ _ _ => Except.ok 5

/-- A resolver that throws `5`. -/
def failResolve : Nat → Nat → Ctx Nat → Nat → Except Nat Nat :=
  fun _ _ _ _ => Except.error 5

/-- No hooks registered for any lifecycle event. -/
def emptyHooks : IMiddlewareHooks Nat Nat Nat Nat Nat Nat :=
  fun _ => none

/-- One `preResolve` hook, and it throws `7`. -/
def preThrowHooks : IMiddlewareHooks Nat Nat Nat Nat Nat Nat :=
  fun name => if name = "preResolve" then some [throwHook 7] else none

/-- Two `preResolve` hooks: the first throws `7`, the second is benign. -/
def preTwoHooks : IMiddlewareHooks Nat Nat Nat Nat Nat Nat :=
  fun name => if name = "preResolve" then some [throwHook 7, noopHook] else none

/-- One `postResolve` hook, and it throws `7`. -/
def postThrowHooks : IMiddlewareHooks Nat Nat Nat Nat Nat Nat :=
  fun name => if name = "postResolve" then some [throwHook 7] else none

/-- Two `postResolve` hooks: the first throws `7`, the second is benign. -/
def postTwoHooks : IMiddlewareHooks Nat Nat Nat Nat Nat Nat :=
  fun name => if name = "postResolve" then some [throwHook 7, noopHook] else none

/-- One `resolveError` hook, and it throws `9`. -/
def errThrowHooks : IMiddlewareHooks Nat Nat Nat Nat Nat Nat :=
  fun name => if name = "resolveError" then some [throwHook 9] else none

/-- A `postResolve` hook that throws `7` and a `resolveError` hook that
throws `9`. -/
def postErrThrowHooks : IMiddlewareHooks Nat Nat Nat Nat Nat Nat :=
  fun name =>
    if name = "postResolve" then some [throwHook 7]
    else if name = "resolveError" then some [throwHook 9]
    else none

/-- A `postResolve` hook that throws `7` and a benign `resolveError` hook. -/
def postThrowErrNoopHooks : IMiddlewareHooks Nat Nat Nat Nat Nat Nat :=
  fun name =>
    if name = "postResolve" then some [throwHook 7]
    else if name = "resolveError" then some [noopHook]
    else none

/-- One benign `preResolve` hook, nothing else. -/
def benignHooks : IMiddlewareHooks Nat Nat Nat Nat Nat Nat :=
  fun name => if name = "preResolve" then some [noopHook] else none

/-- Two benign `preResolve` hooks, nothing else. -/
def preNoopTwoHooks : IMiddlewareHooks Nat Nat Nat Nat Nat Nat :=
  fun name => if name = "preResolve" then some [noopHook, noopHook] else none

/-- One benign `postResolve` hook, nothing else. -/
def postNoopHooks : IMiddlewareHooks Nat Nat Nat Nat Nat Nat :=
  fun name => if name = "postResolve" then some [noopHook] else none

/-- One benign `resolveError` hook, nothing else. -/
def errNoopHooks : IMiddlewareHooks Nat Nat Nat Nat Nat Nat :=
  fun name => if name = "resolveError" then some [noopHook] else none

example : (middlewareRun natOpts preThrowHooks okResolve 1 2 3 4).2 = Outcome.pending := by
  decide

example : (middlewareRun natOpts emptyHooks okResolve 1 2 3 4).2 = Outcome.resolved 5 := by
  decide

example : (middlewareRun natOpts emptyHooks failResolve 1 2 3 4).2 = Outcome.rejected 5 := by
  decide

example : (middlewareRun natOpts postThrowHooks okResolve 1 2 3 4).2 = Outcome.rejected 7 := by
  decide

example : (middlewareRun natOpts errThrowHooks failResolve 1 2 3 4).2 = Outcome.pending := by
  decide

example :
    spanStartCount (middlewareRun natOpts preThrowHooks okResolve 1 2 3 4).1 = 0 ∧
    spanEndCount (middlewareRun natOpts preThrowHooks okResolve 1 2 3 4).1 = 0 := by
  decide

section Paths

variable (opts : IMiddlewareOptions) (hooks : IMiddlewareHooks T P A I D E)
variable (resolve : P → A → Ctx T → I → Except E D)
variable (parent : P) (args : A) (user : T) (info : I)

theorem run_path_preErr {preEvs : List (Ev T P A I D E)} {e : E}
    (hpre : runHook hooks "preResolve" (preRecord parent args user info)
      = (preEvs, Except.error e)) :
    middlewareRun opts hooks resolve parent args user info =
      ([Ev.attachTracer, Ev.spanCreated (chosenSpanOptions opts), Ev.attachRootSpan]
        ++ preEvs, Outcome.pending) := by
  unfold middlewareRun
  rw [hpre]

theorem run_path_okOk {preEvs postEvs : List (Ev T P A I D E)} {d : D}
    (hpre : runHook hooks "preResolve" (preRecord parent args user info)
      = (preEvs, Except.ok ()))
    (hres : resolve parent args (attachedCtx user) info = Except.ok d)
    (hpost : runHook hooks "postResolve" (postRecord parent args user info d)
      = (postEvs, Except.ok ())) :
    middlewareRun opts hooks resolve parent args user info =
      ([Ev.attachTracer, Ev.spanCreated (chosenSpanOptions opts), Ev.attachRootSpan]
        ++ preEvs
        ++ [Ev.spanStart, Ev.resolverCall parent args (attachedCtx user) info,
            Ev.resolverOk d]
        ++ postEvs
        ++ [Ev.spanEnd, Ev.promiseResolve d], Outcome.resolved d) := by
  unfold middlewareRun
  simp only [hpre, hres, hpost]

theorem run_path_postErrRecovered {preEvs postEvs errEvs : List (Ev T P A I D E)}
    {d : D} {h : E}
    (hpre : runHook hooks "preResolve" (preRecord parent args user info)
      = (preEvs, Except.ok ()))
    (hres : resolve parent args (attachedCtx user) info = Except.ok d)
    (hpost : runHook hooks "postResolve" (postRecord parent args user info d)
      = (postEvs, Except.error h))
    (herr : runHook hooks "resolveError" (errRecord parent args user info h)
      = (errEvs, Except.ok ())) :
    middlewareRun opts hooks resolve parent args user info =
      ([Ev.attachTracer, Ev.spanCreated (chosenSpanOptions opts), Ev.attachRootSpan]
        ++ preEvs
        ++ [Ev.spanStart, Ev.resolverCall parent args (attachedCtx user) info,
            Ev.resolverOk d]
        ++ postEvs ++ errEvs
        ++ [Ev.spanEnd, Ev.promiseReject h], Outcome.rejected h) := by
  unfold middlewareRun
  simp only [hpre, hres, hpost, herr]

theorem run_path_postErrErr {preEvs postEvs errEvs : List (Ev T P A I D E)}
    {d : D} {h h2 : E}
    (hpre : runHook hooks "preResolve" (preRecord parent args user info)
      = (preEvs, Except.ok ()))
    (hres : resolve parent args (attachedCtx user) info = Except.ok d)
    (hpost : runHook hooks "postResolve" (postRecord parent args user info d)
      = (postEvs, Except.error h))
    (herr : runHook hooks "resolveError" (errRecord parent args user info h)
      = (errEvs, Except.error h2)) :
    middlewareRun opts hooks resolve parent args user info =
      ([Ev.attachTracer, Ev.spanCreated (chosenSpanOptions opts), Ev.attachRootSpan]
        ++ preEvs
        ++ [Ev.spanStart, Ev.resolverCall parent args (attachedCtx user) info,
            Ev.resolverOk d]
        ++ postEvs ++ errEvs, Outcome.pending) := by
  unfold middlewareRun
  simp only [hpre, hres, hpost, herr]

theorem run_path_resErrRecorded {preEvs errEvs : List (Ev T P A I D E)} {e : E}
    (hpre : runHook hooks "preResolve" (preRecord parent args user info)
      = (preEvs, Except.ok ()))
    (hres : resolve parent args (attachedCtx user) info = Except.error e)
    (herr : runHook hooks "resolveError" (errRecord parent args user info e)
      = (errEvs, Except.ok ())) :
    middlewareRun opts hooks resolve parent args user info =
      ([Ev.attachTracer, Ev.spanCreated (chosenSpanOptions opts), Ev.attachRootSpan]
        ++ preEvs
        ++ [Ev.spanStart, Ev.resolverCall parent args (attachedCtx user) info,
            Ev.resolverThrew e]
        ++ errEvs
        ++ [Ev.spanEnd, Ev.promiseReject e], Outcome.rejected e) := by
  unfold middlewareRun
  simp only [hpre, hres, herr]

theorem run_path_resErrErr {preEvs errEvs : List (Ev T P A I D E)} {e h2 : E}
    (hpre : runHook hooks "preResolve" (preRecord parent args user info)
      = (preEvs, Except.ok ()))
    (hres : resolve parent args (attachedCtx user) info = Except.error e)
    (herr : runHook hooks "resolveError" (errRecord parent args user info e)
      = (errEvs, Except.error h2)) :
    middlewareRun opts hooks resolve parent args user info =
      ([Ev.attachTracer, Ev.spanCreated (chosenSpanOptions opts), Ev.attachRootSpan]
        ++ preEvs
        ++ [Ev.spanStart, Ev.resolverCall parent args (attachedCtx user) info,
            Ev.resolverThrew e]
        ++ errEvs, Outcome.pending) := by
  unfold middlewareRun
  simp only [hpre, hres, herr]

end Paths

/-- Claim C7: for every dispatch of a lifecycle event with a registered
hook list, the callbacks are invoked strictly sequentially in registration
order, each awaited to completion (its `hookDone` event) before the next
begins; if any callback fails, the remaining callbacks of that dispatch are
not invoked and the failure propagates to the caller of the dispatch:
the dispatch produces exactly the interleaved call/done events of the hooks
preceding the first failing one, then the call of the failing hook, and
returns that hook's error; if no callback fails it produces the full
interleaving and returns success. -/
theorem dispatch_sequential_abort (hooks : IMiddlewareHooks T P A I D E)
    (name : String) (rec : IHookFnContext T P A I D E)
    (fns : List (IMiddlewareHookFn T P A I D E))
    (hreg : hooks name = some fns) :
    runHook hooks name rec =
      match firstFailure rec fns with
      | none => (dispatchEvents name rec fns 0, Except.ok ())
      | some (k, e) =>
        (dispatchEvents name rec (fns.take k) 0 ++ [Ev.hookCall name k rec],
         Except.error e) := by
  unfold runHook
  rw [hreg]
  show runHookList name rec fns 0 = _
  have h0 := runHookList_firstFailure name rec fns 0
  cases hff : firstFailure rec fns with
  | none => rw [hff] at h0; exact h0
  | some p =>
    obtain ⟨k, e⟩ := p
    rw [hff] at h0
    simpa using h0

/-- Witness for C7 at a concrete dispatch: one registered `preResolve`
hook which throws; the dispatch invokes it and propagates its error. -/
theorem dispatch_sequential_abort_witness :
    preThrowHooks "preResolve" = some [throwHook 7] ∧
    runHook preThrowHooks "preResolve" (preRecord 1 2 3 4) =
      ([Ev.hookCall "preResolve" 0 (preRecord 1 2 3 4)], Except.error 7) :=
  ⟨rfl,
    dispatch_sequential_abort preThrowHooks "preResolve" (preRecord 1 2 3 4)
      [throwHook 7] rfl⟩

/-- Claim C8: dispatching a lifecycle event whose hook list is absent (or
empty) is a no-op, and registering no hooks (or only empty lists) for every
lifecycle event leaves the middleware's outcome identical to the wrapped
resolver's own result or failure. -/
theorem empty_hooks_transparent (opts : IMiddlewareOptions)
    (hooks1 hooks2 : IMiddlewareHooks T P A I D E)
    (resolve : P → A → Ctx T → I → Except E D)
    (parent : P) (args : A) (user : T) (info : I)
    (name : String) (rec : IHookFnContext T P A I D E)
    (h1 : hooks1 name = none ∨ hooks1 name = some [])
    (h2 : ∀ n, hooks2 n = none ∨ hooks2 n = some []) :
    runHook hooks1 name rec = ([], Except.ok ()) ∧
    (middlewareRun opts hooks2 resolve parent args user info).2 =
      mirrorOutcome (resolve parent args (attachedCtx user) info) := by
  have hrun : ∀ (hs : IMiddlewareHooks T P A I D E) (n : String)
      (r : IHookFnContext T P A I D E), hs n = none ∨ hs n = some [] →
      runHook hs n r = ([], Except.ok ()) := by
    intro hs n r h
    unfold runHook
    rcases h with h | h
    · rw [h]
    · rw [h]; exact rfl
  refine ⟨hrun hooks1 name rec h1, ?_⟩
  cases hres : resolve parent args (attachedCtx user) info with
  | ok d =>
    rw [run_path_okOk opts hooks2 resolve parent args user info
      (hrun hooks2 _ _ (h2 _)) hres (hrun hooks2 _ _ (h2 _))]
    rfl
  | error e =>
    rw [run_path_resErrRecorded opts hooks2 resolve parent args user info
      (hrun hooks2 _ _ (h2 _)) hres (hrun hooks2 _ _ (h2 _))]
    rfl

/-- Witness for C8 at concrete inputs: with no hooks registered the
dispatch is a no-op and the caller receives exactly what the resolver
produced (here: resolution with `5`). -/
theorem empty_hooks_transparent_witness :
    runHook emptyHooks "postResolve" (preRecord 1 2 3 4) = ([], Except.ok ()) ∧
    (middlewareRun natOpts emptyHooks okResolve 1 2 3 4).2 =
      mirrorOutcome (okResolve 1 2 (attachedCtx 3) 4) :=
  empty_hooks_transparent natOpts emptyHooks emptyHooks okResolve 1 2 3 4
    "postResolve" (preRecord 1 2 3 4) (Or.inl rfl) (fun _ => Or.inl rfl)

/-- Claim C9: in every invocation the tracing handle is attached to the
per-request context exactly once (one tracer attachment and one root-span
attachment), and every hook callback and the wrapped resolver receive a
context whose `tracing` field carries both the tracer reference and the
active span reference. -/
theorem tracing_handle_attached (opts : IMiddlewareOptions)
    (hooks : IMiddlewareHooks T P A I D E)
    (resolve : P → A → Ctx T → I → Except E D)
    (parent : P) (args : A) (user : T) (info : I) :
    ((middlewareRun opts hooks resolve parent args user info).1).countP
        Ev.isAttachTracer = 1 ∧
    ((middlewareRun opts hooks resolve parent args user info).1).countP
        Ev.isAttachRootSpan = 1 ∧
    ((middlewareRun opts hooks resolve parent args user info).1).all
        evTracingVisible = true := by
  have hz1 : ∀ (n : String) (r : IHookFnContext T P A I D E),
      ((runHook hooks n r).1).countP Ev.isAttachTracer = 0 :=
    fun n r => runHook_countP_zero hooks n r _ (fun _ => rfl) (fun _ => rfl)
  have hz2 : ∀ (n : String) (r : IHookFnContext T P A I D E),
      ((runHook hooks n r).1).countP Ev.isAttachRootSpan = 0 :=
    fun n r => runHook_countP_zero hooks n r _ (fun _ => rfl) (fun _ => rfl)
  have hv : ∀ (n : String) (r : IHookFnContext T P A I D E),
      r.context = attachedCtx user →
      ((runHook hooks n r).1).all evTracingVisible = true := by
    intro n r hr
    refine runHook_all hooks n r _ (fun j => ?_) (fun _ => rfl)
    simp [hr, attachedCtx]
  cases hpre : runHook hooks "preResolve" (preRecord parent args user info) with
  | mk preEvs pres =>
  have hpre1 : preEvs.countP Ev.isAttachTracer = 0 := by
    have := hz1 "preResolve" (preRecord parent args user info); rw [hpre] at this
    exact this
  have hpre2 : preEvs.countP Ev.isAttachRootSpan = 0 := by
    have := hz2 "preResolve" (preRecord parent args user info); rw [hpre] at this
    exact this
  have hpre3 : preEvs.all evTracingVisible = true := by
    have := hv "preResolve" (preRecord parent args user info) rfl; rw [hpre] at this
    exact this
  cases pres with
  | error e =>
    rw [run_path_preErr opts hooks resolve parent args user info hpre]
    simp [List.countP_append, List.countP_cons, hpre1, hpre2, List.all_append, hpre3]
  | ok u =>
    cases u
    cases hres : resolve parent args (attachedCtx user) info with
    | ok d =>
      cases hpost : runHook hooks "postResolve" (postRecord parent args user info d) with
      | mk postEvs posts =>
      have hpost1 : postEvs.countP Ev.isAttachTracer = 0 := by
        have := hz1 "postResolve" (postRecord parent args user info d)
        rw [hpost] at this; exact this
      have hpost2 : postEvs.countP Ev.isAttachRootSpan = 0 := by
        have := hz2 "postResolve" (postRecord parent args user info d)
        rw [hpost] at this; exact this
      have hpost3 : postEvs.all evTracingVisible = true := by
        have := hv "postResolve" (postRecord parent args user info d) rfl
        rw [hpost] at this; exact this
      cases posts with
      | ok u2 =>
        cases u2
        rw [run_path_okOk opts hooks resolve parent args user info hpre hres hpost]
        simp [List.countP_append, List.countP_cons, List.all_append,
          hpre1, hpre2, hpre3, hpost1, hpost2, hpost3, attachedCtx]
      | error h =>
        cases herr : runHook hooks "resolveError" (errRecord parent args user info h) with
        | mk errEvs errs =>
        have herr1 : errEvs.countP Ev.isAttachTracer = 0 := by
          have := hz1 "resolveError" (errRecord parent args user info h)
          rw [herr] at this; exact this
        have herr2 : errEvs.countP Ev.isAttachRootSpan = 0 := by
          have := hz2 "resolveError" (errRecord parent args user info h)
          rw [herr] at this; exact this
        have herr3 : errEvs.all evTracingVisible = true := by
          have := hv "resolveError" (errRecord parent args user info h) rfl
          rw [herr] at this; exact this
        cases errs with
        | ok u3 =>
          cases u3
          rw [run_path_postErrRecovered opts hooks resolve parent args user info
            hpre hres hpost herr]
          simp [List.countP_append, List.countP_cons, List.all_append,
            hpre1, hpre2, hpre3, hpost1, hpost2, hpost3, herr1, herr2, herr3,
            attachedCtx]
        | error h2 =>
          rw [run_path_postErrErr opts hooks resolve parent args user info
            hpre hres hpost herr]
          simp [List.countP_append, List.countP_cons, List.all_append,
            hpre1, hpre2, hpre3, hpost1, hpost2, hpost3, herr1, herr2, herr3,
            attachedCtx]
    | error e =>
      cases herr : runHook hooks "resolveError" (errRecord parent args user info e) with
      | mk errEvs errs =>
      have herr1 : errEvs.countP Ev.isAttachTracer = 0 := by
        have := hz1 "resolveError" (errRecord parent args user info e)
        rw [herr] at this; exact this
      have herr2 : errEvs.countP Ev.isAttachRootSpan = 0 := by
        have := hz2 "resolveError" (errRecord parent args user info e)
        rw [herr] at this; exact this
      have herr3 : errEvs.all evTracingVisible = true := by
        have := hv "resolveError" (errRecord parent args user info e) rfl
        rw [herr] at this; exact this
      cases errs with
      | ok u3 =>
        cases u3
        rw [run_path_resErrRecorded opts hooks resolve parent args user info
          hpre hres herr]
        simp [List.countP_append, List.countP_cons, List.all_append,
          hpre1, hpre2, hpre3, herr1, herr2, herr3, attachedCtx]
      | error h2 =>
        rw [run_path_resErrErr opts hooks resolve parent args user info
          hpre hres herr]
        simp [List.countP_append, List.countP_cons, List.all_append,
          hpre1, hpre2, hpre3, herr1, herr2, herr3, attachedCtx]

theorem runHook_eta_ok (hooks : IMiddlewareHooks T P A I D E) (name : String)
    (rec : IHookFnContext T P A I D E) (h : AllOk hooks) :
    runHook hooks name rec = ((runHook hooks name rec).1, Except.ok ()) := by
  have h2 := runHook_ok_of_allOk hooks name rec h
  cases hr : runHook hooks name rec with
  | mk a b =>
    rw [hr] at h2
    simp only at h2
    rw [h2]

theorem dispatchEvents_length (name : String) (rec : IHookFnContext T P A I D E)
    (fns : List (IMiddlewareHookFn T P A I D E)) :
    ∀ i : Nat, (dispatchEvents name rec fns i).length = 2 * fns.length := by
  induction fns with
  | nil => intro i; rfl
  | cons f fs ih =>
    intro i
    simp only [dispatchEvents, List.length_cons, ih (i + 1)]
    omega

theorem dispatchEvents_all (name : String) (rec : IHookFnContext T P A I D E)
    (p : Ev T P A I D E → Bool)
    (h1 : ∀ j, p (Ev.hookCall name j rec) = true)
    (h2 : ∀ j, p (Ev.hookDone name j) = true)
    (fns : List (IMiddlewareHookFn T P A I D E)) :
    ∀ i : Nat, (dispatchEvents name rec fns i).all p = true := by
  induction fns with
  | nil => intro i; rfl
  | cons f fs ih =>
    intro i
    simp [dispatchEvents, h1 i, h2 i, ih (i + 1)]

theorem middlewareRun_after_preOk (opts : IMiddlewareOptions)
    (hooks : IMiddlewareHooks T P A I D E)
    (resolve : P → A → Ctx T → I → Except E D)
    (parent : P) (args : A) (user : T) (info : I)
    {preEvs : List (Ev T P A I D E)}
    (hpre : runHook hooks "preResolve" (preRecord parent args user info)
      = (preEvs, Except.ok ())) :
    ∃ rest, (middlewareRun opts hooks resolve parent args user info).1 =
      ([Ev.attachTracer, Ev.spanCreated (chosenSpanOptions opts), Ev.attachRootSpan]
        ++ preEvs
        ++ [Ev.spanStart, Ev.resolverCall parent args (attachedCtx user) info])
        ++ rest := by
  cases hres : resolve parent args (attachedCtx user) info with
  | ok d =>
    cases hpost : runHook hooks "postResolve" (postRecord parent args user info d) with
    | mk postEvs posts =>
    cases posts with
    | ok u =>
      cases u
      refine ⟨Ev.resolverOk d :: (postEvs ++ [Ev.spanEnd, Ev.promiseResolve d]), ?_⟩
      rw [run_path_okOk opts hooks resolve parent args user info hpre hres hpost]
      simp
    | error h =>
      cases herr : runHook hooks "resolveError" (errRecord parent args user info h) with
      | mk errEvs errs =>
      cases errs with
      | ok u =>
        cases u
        refine ⟨Ev.resolverOk d ::
          (postEvs ++ errEvs ++ [Ev.spanEnd, Ev.promiseReject h]), ?_⟩
        rw [run_path_postErrRecovered opts hooks resolve parent args user info
          hpre hres hpost herr]
        simp
      | error h2 =>
        refine ⟨Ev.resolverOk d :: (postEvs ++ errEvs), ?_⟩
        rw [run_path_postErrErr opts hooks resolve parent args user info
          hpre hres hpost herr]
        simp
  | error e =>
    cases herr : runHook hooks "resolveError" (errRecord parent args user info e) with
    | mk errEvs errs =>
    cases errs with
    | ok u =>
      cases u
      refine ⟨Ev.resolverThrew e :: (errEvs ++ [Ev.spanEnd, Ev.promiseReject e]), ?_⟩
      rw [run_path_resErrRecorded opts hooks resolve parent args user info
        hpre hres herr]
      simp
    | error h2 =>
      refine ⟨Ev.resolverThrew e :: errEvs, ?_⟩
      rw [run_path_resErrErr opts hooks resolve parent args user info hpre hres herr]
      simp

/-- Does every `hookCall` event belonging to dispatch `name` carry exactly
the record `rec0`?  Events of other dispatches and non-call events pass. -/
@[simp] def hookCallRecIs [DecidableEq (IHookFnContext T P A I D E)]
    (name : String) (rec0 : IHookFnContext T P A I D E) : Ev T P A I D E → Bool
  | Ev.hookCall n _ r => if n = name then decide (r = rec0) else true
  | _ => true

theorem benignHooks_allOk : AllOk benignHooks := by
  intro name fns h f hf rec
  by_cases hn : name = "preResolve"
  · subst hn
    have h2 : some [noopHook] = some fns := h
    obtain rfl := Option.some.inj h2
    have hf2 := List.mem_singleton.mp hf
    subst hf2
    rfl
  · simp [benignHooks, hn] at h

/-- Counterexample to claim C1 as stated: with a single registered
`preResolve` hook that throws, the invocation starts the span zero times
and ends it zero times — not exactly once — so the balance does not hold
regardless of hook failures. -/
theorem span_not_started_counterexample :
    spanStartCount (middlewareRun natOpts preThrowHooks okResolve 1 2 3 4).1 = 0 ∧
    spanEndCount (middlewareRun natOpts preThrowHooks okResolve 1 2 3 4).1 = 0 := by
  decide

/-- Claim C1 (amended): for every invocation in which no registered hook
callback throws, the root span is started exactly once and ended exactly
once, whether the wrapped resolver succeeds or fails. -/
theorem span_started_ended_once_when_hooks_ok (opts : IMiddlewareOptions)
    (hooks : IMiddlewareHooks T P A I D E)
    (resolve : P → A → Ctx T → I → Except E D)
    (parent : P) (args : A) (user : T) (info : I) (hok : AllOk hooks) :
    spanStartCount (middlewareRun opts hooks resolve parent args user info).1 = 1 ∧
    spanEndCount (middlewareRun opts hooks resolve parent args user info).1 = 1 := by
  have hzs : ∀ (n : String) (r : IHookFnContext T P A I D E),
      ((runHook hooks n r).1).countP Ev.isSpanStart = 0 :=
    fun n r => runHook_countP_zero hooks n r _ (fun _ => rfl) (fun _ => rfl)
  have hze : ∀ (n : String) (r : IHookFnContext T P A I D E),
      ((runHook hooks n r).1).countP Ev.isSpanEnd = 0 :=
    fun n r => runHook_countP_zero hooks n r _ (fun _ => rfl) (fun _ => rfl)
  have hpre := runHook_eta_ok hooks "preResolve" (preRecord parent args user info) hok
  cases hres : resolve parent args (attachedCtx user) info with
  | ok d =>
    have hpost := runHook_eta_ok hooks "postResolve" (postRecord parent args user info d) hok
    unfold spanStartCount spanEndCount
    rw [run_path_okOk opts hooks resolve parent args user info hpre hres hpost]
    simp [List.countP_append, List.countP_cons, hzs, hze]
  | error e =>
    have herr := runHook_eta_ok hooks "resolveError" (errRecord parent args user info e) hok
    unfold spanStartCount spanEndCount
    rw [run_path_resErrRecorded opts hooks resolve parent args user info hpre hres herr]
    simp [List.countP_append, List.countP_cons, hzs, hze]

/-- Witness for the amended C1: with one benign `preResolve` hook the
span is started once and ended once. -/
theorem span_started_ended_once_when_hooks_ok_witness :
    AllOk benignHooks ∧
    spanStartCount (middlewareRun natOpts benignHooks okResolve 1 2 3 4).1 = 1 ∧
    spanEndCount (middlewareRun natOpts benignHooks okResolve 1 2 3 4).1 = 1 :=
  ⟨benignHooks_allOk,
    span_started_ended_once_when_hooks_ok natOpts benignHooks okResolve 1 2 3 4
      benignHooks_allOk⟩

/-- Counterexample to claim C2 as stated: with a `preResolve` hook that
throws, `span.end()` is never invoked and the failure is never surfaced —
the promise stays pending instead of settling after the span is closed. -/
theorem preResolve_throw_no_close_counterexample :
    spanEndCount (middlewareRun natOpts preThrowHooks okResolve 11 12 13 14).1 = 0 ∧
    (middlewareRun natOpts preThrowHooks okResolve 11 12 13 14).2 = Outcome.pending := by
  decide

/-- Claim C2 (amended): if a `preResolve` hook throws during dispatch, the
span is neither started nor ended and the failure is NOT surfaced to the
original caller: the trace stops after the aborted dispatch and the
middleware's returned promise never settles. -/
theorem preResolve_throw_leaks_span (opts : IMiddlewareOptions)
    (hooks : IMiddlewareHooks T P A I D E)
    (resolve : P → A → Ctx T → I → Except E D)
    (parent : P) (args : A) (user : T) (info : I)
    {preEvs : List (Ev T P A I D E)} {e : E}
    (hpre : runHook hooks "preResolve" (preRecord parent args user info)
      = (preEvs, Except.error e)) :
    middlewareRun opts hooks resolve parent args user info =
      ([Ev.attachTracer, Ev.spanCreated (chosenSpanOptions opts), Ev.attachRootSpan]
        ++ preEvs, Outcome.pending) ∧
    spanStartCount (middlewareRun opts hooks resolve parent args user info).1 = 0 ∧
    spanEndCount (middlewareRun opts hooks resolve parent args user info).1 = 0 := by
  have hm := run_path_preErr opts hooks resolve parent args user info hpre
  have hzs : preEvs.countP Ev.isSpanStart = 0 := by
    have := runHook_countP_zero hooks "preResolve" (preRecord parent args user info)
      Ev.isSpanStart (fun _ => rfl) (fun _ => rfl)
    rw [hpre] at this
    exact this
  have hze : preEvs.countP Ev.isSpanEnd = 0 := by
    have := runHook_countP_zero hooks "preResolve" (preRecord parent args user info)
      Ev.isSpanEnd (fun _ => rfl) (fun _ => rfl)
    rw [hpre] at this
    exact this
  refine ⟨hm, ?_, ?_⟩
  · unfold spanStartCount
    rw [hm]
    simp [List.countP_append, List.countP_cons, hzs]
  · unfold spanEndCount
    rw [hm]
    simp [List.countP_append, List.countP_cons, hze]

/-- Witness for the amended C2 at a concrete input: the throwing
`preResolve` hook leaves the trace at the aborted dispatch, with no span
start or end, and the promise pending. -/
theorem preResolve_throw_leaks_span_witness :
    middlewareRun natOpts preThrowHooks okResolve 1 2 3 4 =
      ([Ev.attachTracer, Ev.spanCreated (chosenSpanOptions natOpts), Ev.attachRootSpan]
        ++ [Ev.hookCall "preResolve" 0 (preRecord 1 2 3 4)], Outcome.pending) ∧
    spanStartCount (middlewareRun natOpts preThrowHooks okResolve 1 2 3 4).1 = 0 ∧
    spanEndCount (middlewareRun natOpts preThrowHooks okResolve 1 2 3 4).1 = 0 :=
  preResolve_throw_leaks_span natOpts preThrowHooks okResolve 1 2 3 4 rfl

/-- Counterexample to claim C3 as stated: the resolver resolves with `5`,
yet the caller receives a rejection with `7` (the error thrown by a
`postResolve` hook) — the outcome is not the resolver's outcome. -/
theorem outcome_substituted_counterexample :
    okResolve 1 2 (attachedCtx 3) 4 = Except.ok 5 ∧
    (middlewareRun natOpts postThrowHooks okResolve 1 2 3 4).2 = Outcome.rejected 7 ∧
    (middlewareRun natOpts postThrowHooks okResolve 1 2 3 4).2 ≠
      mirrorOutcome (okResolve 1 2 (attachedCtx 3) 4) :=
  ⟨rfl, by decide, by decide⟩

/-- Claim C3 (amended): for every invocation in which no registered hook
callback throws, the caller receives exactly the value or failure the
wrapped resolver produced: a successful resolution is returned unchanged
and a resolver failure is re-raised unchanged. -/
theorem outcome_mirrors_resolver_when_hooks_ok (opts : IMiddlewareOptions)
    (hooks : IMiddlewareHooks T P A I D E)
    (resolve : P → A → Ctx T → I → Except E D)
    (parent : P) (args : A) (user : T) (info : I) (hok : AllOk hooks) :
    (middlewareRun opts hooks resolve parent args user info).2 =
      mirrorOutcome (resolve parent args (attachedCtx user) info) := by
  have hpre := runHook_eta_ok hooks "preResolve" (preRecord parent args user info) hok
  cases hres : resolve parent args (attachedCtx user) info with
  | ok d =>
    rw [run_path_okOk opts hooks resolve parent args user info hpre hres
      (runHook_eta_ok hooks "postResolve" (postRecord parent args user info d) hok)]
    rfl
  | error e =>
    rw [run_path_resErrRecorded opts hooks resolve parent args user info hpre hres
      (runHook_eta_ok hooks "resolveError" (errRecord parent args user info e) hok)]
    rfl

/-- Witness for the amended C3: with a benign `preResolve` hook and a
failing resolver, the caller receives exactly the resolver's failure. -/
theorem outcome_mirrors_resolver_when_hooks_ok_witness :
    AllOk benignHooks ∧
    (middlewareRun natOpts benignHooks failResolve 1 2 3 4).2 =
      mirrorOutcome (failResolve 1 2 (attachedCtx 3) 4) :=
  ⟨benignHooks_allOk,
    outcome_mirrors_resolver_when_hooks_ok natOpts benignHooks failResolve 1 2 3 4
      benignHooks_allOk⟩

/-- Counterexample to claim C4 as stated: the resolver throws `5`, but
because the single `resolveError` hook itself throws, the middleware's
promise never rejects with `5` — it never settles at all. -/
theorem reject_not_reached_counterexample :
    (middlewareRun natOpts errThrowHooks failResolve 1 2 3 4).2 = Outcome.pending ∧
    (middlewareRun natOpts errThrowHooks failResolve 1 2 3 4).2 ≠ Outcome.rejected 5 :=
  ⟨by decide, by decide⟩

/-- Claim C4 (amended): for every invocation in which the `preResolve`
dispatch succeeds and the wrapped resolver throws `e`, the `resolveError`
hooks are dispatched with a record whose `err` field is exactly `e` (every
`hookCall` of that dispatch carries that record), and — provided the
`resolveError` dispatch completes without a hook throwing — the
middleware's returned promise rejects with that same `e`. -/
theorem resolveError_exact_error (opts : IMiddlewareOptions)
    (hooks : IMiddlewareHooks T P A I D E)
    (resolve : P → A → Ctx T → I → Except E D)
    (parent : P) (args : A) (user : T) (info : I)
    [DecidableEq (IHookFnContext T P A I D E)]
    {preEvs errEvs : List (Ev T P A I D E)} {e : E}
    (hpre : runHook hooks "preResolve" (preRecord parent args user info)
      = (preEvs, Except.ok ()))
    (hres : resolve parent args (attachedCtx user) info = Except.error e)
    (herr : runHook hooks "resolveError" (errRecord parent args user info e)
      = (errEvs, Except.ok ())) :
    middlewareRun opts hooks resolve parent args user info =
      ([Ev.attachTracer, Ev.spanCreated (chosenSpanOptions opts), Ev.attachRootSpan]
        ++ preEvs
        ++ [Ev.spanStart, Ev.resolverCall parent args (attachedCtx user) info,
            Ev.resolverThrew e]
        ++ errEvs
        ++ [Ev.spanEnd, Ev.promiseReject e], Outcome.rejected e) ∧
    (errRecord parent args user info e : IHookFnContext T P A I D E).err = some e ∧
    errEvs.all (hookCallRecIs "resolveError" (errRecord parent args user info e))
      = true := by
  refine ⟨run_path_resErrRecorded opts hooks resolve parent args user info
    hpre hres herr, rfl, ?_⟩
  have := runHook_all hooks "resolveError" (errRecord parent args user info e)
    (hookCallRecIs "resolveError" (errRecord parent args user info e))
    (fun j => by simp) (fun _ => rfl)
  rw [herr] at this
  exact this

/-- Witness for the amended C4: resolver throws `5`, a benign
`resolveError` hook observes it, and the caller's promise rejects with
exactly `5`. -/
theorem resolveError_exact_error_witness :
    (middlewareRun natOpts errNoopHooks failResolve 1 2 3 4).2 = Outcome.rejected 5 ∧
    (errRecord 1 2 3 4 5 : IHookFnContext Nat Nat Nat Nat Nat Nat).err = some 5 :=
  ⟨by rw [(resolveError_exact_error natOpts errNoopHooks failResolve 1 2 3 4
      rfl rfl rfl).1],
    (resolveError_exact_error natOpts errNoopHooks failResolve 1 2 3 4
      rfl rfl rfl).2.1⟩

/-- Counterexample to claim C5 as stated: two `preResolve` hooks are
registered but the first one throws, so the second registered hook is never
invoked (no `hookCall` with index 1 appears) and the resolver never begins
— not all registered `preResolve` hooks run to completion. -/
theorem preResolve_not_all_run_counterexample :
    ((preTwoHooks "preResolve").getD []).length = 2 ∧
    ((middlewareRun natOpts preTwoHooks okResolve 1 2 3 4).1).countP
      (Ev.isHookCallAt "preResolve" 1) = 0 ∧
    ((middlewareRun natOpts preTwoHooks okResolve 1 2 3 4).1).countP
      Ev.isResolverCall = 0 := by
  decide

/-- Claim C5 (amended): for every invocation in which every registered
`preResolve` hook completes without throwing, the invocation's trace begins
with the context attachments and span creation, then the full `preResolve`
dispatch — every registered hook invoked in registration order, each
completing before the next is invoked — then `span.start()`, then,
immediately after, the resolver invocation. -/
theorem preResolve_hooks_before_resolver (opts : IMiddlewareOptions)
    (hooks : IMiddlewareHooks T P A I D E)
    (resolve : P → A → Ctx T → I → Except E D)
    (parent : P) (args : A) (user : T) (info : I)
    (fns : List (IMiddlewareHookFn T P A I D E))
    (hreg : hooks "preResolve" = some fns)
    (hok : ∀ f ∈ fns, f (preRecord parent args user info) = Except.ok ()) :
    ((middlewareRun opts hooks resolve parent args user info).1).take
        (5 + 2 * fns.length) =
      [Ev.attachTracer, Ev.spanCreated (chosenSpanOptions opts), Ev.attachRootSpan]
        ++ dispatchEvents "preResolve" (preRecord parent args user info) fns 0
        ++ [Ev.spanStart, Ev.resolverCall parent args (attachedCtx user) info] := by
  have hpre : runHook hooks "preResolve" (preRecord parent args user info)
      = (dispatchEvents "preResolve" (preRecord parent args user info) fns 0,
         Except.ok ()) := by
    unfold runHook
    rw [hreg]
    exact runHookList_allOk "preResolve" (preRecord parent args user info) fns 0 hok
  obtain ⟨rest, htr⟩ :=
    middlewareRun_after_preOk opts hooks resolve parent args user info hpre
  rw [htr]
  rw [show (5 + 2 * fns.length) =
      ([Ev.attachTracer, Ev.spanCreated (chosenSpanOptions opts), Ev.attachRootSpan]
        ++ dispatchEvents "preResolve" (preRecord parent args user info) fns 0
        ++ [Ev.spanStart,
            Ev.resolverCall parent args (attachedCtx user) info]).length from by
    simp [dispatchEvents_length]
    omega]
  exact List.take_left _ _

/-- Witness for the amended C5: two benign `preResolve` hooks run in
order, to completion, before `span.start()` and the resolver invocation. -/
theorem preResolve_hooks_before_resolver_witness :
    ((middlewareRun natOpts preNoopTwoHooks okResolve 1 2 3 4).1).take 9 =
      [Ev.attachTracer, Ev.spanCreated (chosenSpanOptions natOpts), Ev.attachRootSpan]
        ++ dispatchEvents "preResolve" (preRecord 1 2 3 4) [noopHook, noopHook] 0
        ++ [Ev.spanStart, Ev.resolverCall 1 2 (attachedCtx 3) 4] :=
  preResolve_hooks_before_resolver natOpts preNoopTwoHooks okResolve 1 2 3 4
    [noopHook, noopHook] rfl
    (by
      intro f hf
      rcases List.mem_cons.mp hf with h | h
      · subst h; rfl
      · have h2 := List.mem_singleton.mp h
        subst h2; rfl)

/-- Counterexample to claim C6 as stated: the resolver resolves with `5`
and two `postResolve` hooks are registered, but the first one throws, so
the second registered `postResolve` hook never runs, and the resolved value
is never returned to the caller. -/
theorem postResolve_not_all_run_counterexample :
    ((postTwoHooks "postResolve").getD []).length = 2 ∧
    ((middlewareRun natOpts postTwoHooks okResolve 1 2 3 4).1).countP
      (Ev.isHookCallAt "postResolve" 1) = 0 ∧
    (middlewareRun natOpts postTwoHooks okResolve 1 2 3 4).2 ≠ Outcome.resolved 5 := by
  decide

/-- Claim C6 (amended): for every invocation in which the `preResolve`
dispatch succeeds, the wrapped resolver resolves with `d`, and every
registered `postResolve` hook completes without throwing, the `postResolve`
hooks all run — in registration order, after `d` is available and before
`d` is handed to the caller — and the record passed to each of them carries
exactly `d` as its `resolvedData`. -/
theorem postResolve_sees_exact_data (opts : IMiddlewareOptions)
    (hooks : IMiddlewareHooks T P A I D E)
    (resolve : P → A → Ctx T → I → Except E D)
    (parent : P) (args : A) (user : T) (info : I)
    [DecidableEq (IHookFnContext T P A I D E)]
    {preEvs : List (Ev T P A I D E)} {d : D}
    (fns : List (IMiddlewareHookFn T P A I D E))
    (hpre : runHook hooks "preResolve" (preRecord parent args user info)
      = (preEvs, Except.ok ()))
    (hres : resolve parent args (attachedCtx user) info = Except.ok d)
    (hreg : hooks "postResolve" = some fns)
    (hok : ∀ f ∈ fns, f (postRecord parent args user info d) = Except.ok ()) :
    middlewareRun opts hooks resolve parent args user info =
      ([Ev.attachTracer, Ev.spanCreated (chosenSpanOptions opts), Ev.attachRootSpan]
        ++ preEvs
        ++ [Ev.spanStart, Ev.resolverCall parent args (attachedCtx user) info,
            Ev.resolverOk d]
        ++ dispatchEvents "postResolve" (postRecord parent args user info d) fns 0
        ++ [Ev.spanEnd, Ev.promiseResolve d], Outcome.resolved d) ∧
    (postRecord parent args user info d : IHookFnContext T P A I D E).data.resolvedData
      = some d ∧
    (dispatchEvents "postResolve" (postRecord parent args user info d) fns 0).all
      (hookCallRecIs "postResolve" (postRecord parent args user info d)) = true := by
  have hpost : runHook hooks "postResolve" (postRecord parent args user info d)
      = (dispatchEvents "postResolve" (postRecord parent args user info d) fns 0,
         Except.ok ()) := by
    unfold runHook
    rw [hreg]
    exact runHookList_allOk "postResolve" (postRecord parent args user info d) fns 0 hok
  refine ⟨run_path_okOk opts hooks resolve parent args user info hpre hres hpost,
    rfl, ?_⟩
  exact dispatchEvents_all "postResolve" (postRecord parent args user info d)
    (hookCallRecIs "postResolve" (postRecord parent args user info d))
    (fun j => by simp) (fun _ => rfl) fns 0

/-- Witness for the amended C6: one benign `postResolve` hook runs after
the resolver produced `5` and before the caller receives `5`, with
`resolvedData = 5` in its record. -/
theorem postResolve_sees_exact_data_witness :
    (middlewareRun natOpts postNoopHooks okResolve 1 2 3 4).2 = Outcome.resolved 5 ∧
    (postRecord 1 2 3 4 5 : IHookFnContext Nat Nat Nat Nat Nat Nat).data.resolvedData
      = some 5 :=
  ⟨by rw [(postResolve_sees_exact_data natOpts postNoopHooks okResolve 1 2 3 4
      [noopHook] rfl rfl rfl (fun f hf => by
        have h2 := List.mem_singleton.mp hf
        subst h2; rfl)).1],
    (postResolve_sees_exact_data natOpts postNoopHooks okResolve 1 2 3 4
      [noopHook] rfl rfl rfl (fun f hf => by
        have h2 := List.mem_singleton.mp hf
        subst h2; rfl)).2.1⟩

/-- Counterexample to claim C10 as stated: the resolver resolves with `5`
and the `postResolve` hook throws `7`, but because the `resolveError` hook
also throws, the span is never ended and the promise never rejects with `7`
— it never settles. -/
theorem error_branch_not_completed_counterexample :
    (middlewareRun natOpts postErrThrowHooks okResolve 1 2 3 4).2 = Outcome.pending ∧
    (middlewareRun natOpts postErrThrowHooks okResolve 1 2 3 4).2 ≠
      Outcome.rejected 7 ∧
    spanEndCount (middlewareRun natOpts postErrThrowHooks okResolve 1 2 3 4).1 = 0 := by
  decide

/-- Claim C10 (amended): if the wrapped resolver resolves successfully but
a `postResolve` hook throws `h`, the middleware takes the failure branch:
the `resolveError` hooks are dispatched with `h` as the error value and —
provided that dispatch completes without a hook throwing — the span is
ended (exactly once) and the middleware's returned promise rejects with
`h`, so the caller receives `h` instead of the resolved value. -/
theorem postResolve_throw_takes_error_branch (opts : IMiddlewareOptions)
    (hooks : IMiddlewareHooks T P A I D E)
    (resolve : P → A → Ctx T → I → Except E D)
    (parent : P) (args : A) (user : T) (info : I)
    [DecidableEq (IHookFnContext T P A I D E)]
    {preEvs postEvs errEvs : List (Ev T P A I D E)} {d : D} {h : E}
    (hpre : runHook hooks "preResolve" (preRecord parent args user info)
      = (preEvs, Except.ok ()))
    (hres : resolve parent args (attachedCtx user) info = Except.ok d)
    (hpost : runHook hooks "postResolve" (postRecord parent args user info d)
      = (postEvs, Except.error h))
    (herr : runHook hooks "resolveError" (errRecord parent args user info h)
      = (errEvs, Except.ok ())) :
    middlewareRun opts hooks resolve parent args user info =
      ([Ev.attachTracer, Ev.spanCreated (chosenSpanOptions opts), Ev.attachRootSpan]
        ++ preEvs
        ++ [Ev.spanStart, Ev.resolverCall parent args (attachedCtx user) info,
            Ev.resolverOk d]
        ++ postEvs ++ errEvs
        ++ [Ev.spanEnd, Ev.promiseReject h], Outcome.rejected h) ∧
    (errRecord parent args user info h : IHookFnContext T P A I D E).err = some h ∧
    errEvs.all (hookCallRecIs "resolveError" (errRecord parent args user info h))
      = true ∧
    spanEndCount (middlewareRun opts hooks resolve parent args user info).1 = 1 := by
  have hm := run_path_postErrRecovered opts hooks resolve parent args user info
    hpre hres hpost herr
  refine ⟨hm, rfl, ?_, ?_⟩
  · have := runHook_all hooks "resolveError" (errRecord parent args user info h)
      (hookCallRecIs "resolveError" (errRecord parent args user info h))
      (fun j => by simp) (fun _ => rfl)
    rw [herr] at this
    exact this
  · have hz : ∀ (n : String) (r : IHookFnContext T P A I D E),
        ((runHook hooks n r).1).countP Ev.isSpanEnd = 0 :=
      fun n r => runHook_countP_zero hooks n r _ (fun _ => rfl) (fun _ => rfl)
    have hzp : preEvs.countP Ev.isSpanEnd = 0 := by
      have := hz "preResolve" (preRecord parent args user info)
      rw [hpre] at this
      exact this
    have hzq : postEvs.countP Ev.isSpanEnd = 0 := by
      have := hz "postResolve" (postRecord parent args user info d)
      rw [hpost] at this
      exact this
    have hzr : errEvs.countP Ev.isSpanEnd = 0 := by
      have := hz "resolveError" (errRecord parent args user info h)
      rw [herr] at this
      exact this
    unfold spanEndCount
    rw [hm]
    simp [List.countP_append, List.countP_cons, hzp, hzq, hzr]

/-- Witness for the amended C10: resolver resolves `5`, the `postResolve`
hook throws `7`, the benign `resolveError` hook lets the branch complete:
the caller receives the rejection `7` and the span is ended once. -/
theorem postResolve_throw_takes_error_branch_witness :
    (middlewareRun natOpts postThrowErrNoopHooks okResolve 1 2 3 4).2 =
      Outcome.rejected 7 ∧
    spanEndCount (middlewareRun natOpts postThrowErrNoopHooks okResolve 1 2 3 4).1
      = 1 :=
  ⟨by rw [(postResolve_throw_takes_error_branch natOpts postThrowErrNoopHooks
      okResolve 1 2 3 4 rfl rfl rfl rfl).1],
    (postResolve_throw_takes_error_branch natOpts postThrowErrNoopHooks
      okResolve 1 2 3 4 rfl rfl rfl rfl).2.2.2⟩

end GJM
